import Mathlib

/-!
Verification development for the Simple-Simul-Radio application
(`app.py`): a shallow embedding of its resolution engine
(`resolve_playlist`), directory search (`_search_thread`), and station
registry (`load_stations`, `save_stations`, `on_ok`, `on_delete`, the
add-from-search path), with theorems about the claims of the spec.

Python strings are modelled as Lean `String`; operations such as
`str.strip`, `str.endswith`, `str.startswith`, `str.lower` and substring
tests are re-implemented over `List Char` so that all predicates are
executable and kernel-reducible.  Network effects are modelled by an
explicit environment recording the outcome of each HTTP request the code
can issue; a `none`/`Except.error` outcome stands for a raised exception
(connection refusal, timeout, malformed response).  An exception raised
midway through body-line iteration is modelled as truncation of the line
list: the Python code returns the original URL on both the exception path
and the fall-through path, so the two are observationally equal.
-/

/-! ## Python string primitives -/

/-- The whitespace characters stripped by Python `str.strip()` (ASCII part). -/
def isPyWs (c : Char) : Bool :=
  c == ' ' || c == '\t' || c == '\n' || c == '\x0d' || c == '\x0b' || c == '\x0c'

/-- Python `str.strip()`: remove leading and trailing whitespace. -/
def pyStrip (s : String) : String :=
  ⟨((s.data.dropWhile isPyWs).reverse.dropWhile isPyWs).reverse⟩

/-- Python falsiness of a string: `not line` holds iff the string is empty. -/
def strBlank (s : String) : Bool :=
  s.data.isEmpty

/-- Does `pat` occur at the head of `s`? (helper for startswith/endswith). -/
def charsHavePre : List Char → List Char → Bool
  | [], _ => true
  | _ :: _, [] => false
  | p :: ps, c :: cs => p == c && charsHavePre ps cs

/-- Python `s.startswith(pat)`. -/
def strStarts (s pat : String) : Bool :=
  charsHavePre pat.data s.data

/-- Python `s.endswith(pat)`. -/
def strEnds (s pat : String) : Bool :=
  charsHavePre pat.data.reverse s.data.reverse

/-- Does `pat` occur anywhere in `s`? (helper for Python `pat in s`). -/
def charsContain : List Char → List Char → Bool
  | [], pat => pat.isEmpty
  | c :: cs, pat => charsHavePre pat (c :: cs) || charsContain cs pat

/-- Python `pat in s` on strings. -/
def strContains (s pat : String) : Bool :=
  charsContain s.data pat.data

/-- Python `str.lower()` on one character (ASCII range, which is all the
code relies on: it only searches for the ASCII substring "audio"). -/
def pyLowerChar (c : Char) : Char :=
  if 'A' ≤ c && c ≤ 'Z' then Char.ofNat (c.toNat + 32) else c

/-- Python `str.lower()` (ASCII model). -/
def pyLower (s : String) : String :=
  ⟨s.data.map pyLowerChar⟩

/-! ## Resolution engine (`resolve_playlist`, app.py lines 36-101) -/

/-- An HTTP response as the code observes it: the `content-type` header
(`r.headers.get("content-type", "") or ""`, so always a string) and the
body lines yielded by `r.iter_lines(decode_unicode=True)` (`none` models a
`None` element, which the code skips).  An exception raised during
iteration is modelled by truncating the list at that point. -/
structure Resp where
  contentType : String
  body : List (Option String)

/-- The network environment of one `resolve_playlist` call: the outcome of
the initial HEAD request and of the fallback streamed GET (`none` models a
raised exception: refusal, timeout, malformed response). -/
structure Env where
  head : Option Resp
  get : Option Resp

/-- The response object `r` held after the probe phase (app.py lines
46-58): the HEAD response if HEAD succeeded, else the GET response if the
fallback GET succeeded, else nothing (the code returns `url` there). -/
def probeResp (env : Env) : Option Resp :=
  match env.head with
  | some r => some r
  | none => env.get

/-- `url.endswith((".mp3", ".aac", ".m3u8", ".pls", ".m3u"))` (app.py line 43). -/
def hasStreamExt (url : String) : Bool :=
  strEnds url ".mp3" || strEnds url ".aac" || strEnds url ".m3u8" ||
    strEnds url ".pls" || strEnds url ".m3u"

/-- The body-scan loop of app.py lines 75-87, with `linesRead` the running
`lines_read` counter and 64 the `max_lines` bound: skip `None` lines
without counting; strip each line; a blank or `#`-comment line is passed
over; a line starting with `http://` or `https://` is returned; after each
counted line the 64-line budget is checked. -/
def sniffLoop : List (Option String) → Nat → Option String
  | [], _ => none
  | none :: rest, linesRead => sniffLoop rest linesRead
  | some raw :: rest, linesRead =>
      if strBlank (pyStrip raw) || strStarts (pyStrip raw) "#" then
        if linesRead + 1 ≥ 64 then none else sniffLoop rest (linesRead + 1)
      else if strStarts (pyStrip raw) "http://" || strStarts (pyStrip raw) "https://" then
        some (pyStrip raw)
      else
        if linesRead + 1 ≥ 64 then none else sniffLoop rest (linesRead + 1)

/-- `resolve_playlist(url, timeout)` (app.py lines 36-101) over the network
environment `env`.  Every exception path of the Python code returns `url`,
so the function is total.  Note the streamed GET at app.py line 72 is dead
code: at that point `r` is always a response object with `iter_lines`. -/
def resolve_playlist (env : Env) (url : String) : String :=
  if hasStreamExt url then url
  else
    match probeResp env with
    | none => url
    | some r =>
        if strContains (pyLower r.contentType) "audio" ||
            strEnds url ".mp3" || strEnds url ".aac" || strEnds url ".m3u8" then
          url
        else
          match sniffLoop r.body 0 with
          | some line => line
          | none => url

/-- The actual text lines of a body sample: the `None` elements that
`iter_lines` may yield are not lines and are dropped. -/
def compactLines : List (Option String) → List String
  | [] => []
  | none :: rest => compactLines rest
  | some raw :: rest => raw :: compactLines rest

/-- Written from the spec's words, for comparison with the code's
`sniffLoop`: scan the (non-`None`) body lines under a line budget; the
stripped form of the first line that starts with `http://` or `https://`
is the answer; blank lines, `#`-comment lines and all other lines are
skipped; an exhausted budget or list yields nothing. -/
def specScan : Nat → List String → Option String
  | 0, _ => none
  | _ + 1, [] => none
  | b + 1, raw :: rest =>
      if strStarts (pyStrip raw) "http://" || strStarts (pyStrip raw) "https://" then
        some (pyStrip raw)
      else specScan b rest

/-! ## Directory search (`_search_thread`, app.py lines 368-399) -/

/-- One record of the directory's JSON answer, as the code reads it with
`item.get(...)`: `none` models an absent key, `some ""` a key bound to an
empty string.  Only the keys the code reads are modelled. -/
structure SearchItem where
  name : Option String
  country : Option String
  tags : Option String
  url : Option String
  url_resolved : Option String
deriving DecidableEq

/-- The outcome of the directory request for each concrete-mode query
parameter: `none` models any exception (transport failure,
`raise_for_status` on a non-2xx answer, a JSON decode error); `some items`
models `r.json()` succeeding with a record array. -/
def SearchEnv : Type := String → Option (List SearchItem)

/-- The value `items` holds after the `try`/`except` of app.py lines
380-387 for mode `m`: the decoded records on success, `[]` on failure. -/
def fetch (env : SearchEnv) (m : String) : List SearchItem :=
  match env m with
  | some items => items
  | none => []

/-- The fallback-mode loop of app.py lines 378-389: for each mode in turn,
request; on failure `items = []`; a non-empty (truthy) `items` breaks the
loop; the final `items` is the result. -/
def searchLoop (env : SearchEnv) : List String → List SearchItem
  | [] => []
  | m :: rest =>
      if (fetch env m).isEmpty then searchLoop env rest else fetch env m

/-- The fixed mode order used when `Auto` is selected (app.py line 373). -/
def autoModes : List String := ["name", "tag", "country", "language"]

/-- `_search_thread(query, mode)` (app.py lines 368-399): build the mode
list (the four-mode fallback sequence for `Auto`, the single lower-cased
mode otherwise) and run the loop.  The query string only enters through
`env`, which models the endpoint's answer per query parameter.  All
exception paths end with `items = []`, so the function is total. -/
def search_thread (env : SearchEnv) (mode : String) : List SearchItem :=
  let modes := if mode = "Auto" then autoModes else [pyLower mode]
  searchLoop env modes

/-- Written from the spec's words: the first mode of the list whose result
sequence is non-empty wins; if all are empty, the result is empty. -/
def firstNonEmpty : List (List SearchItem) → List SearchItem
  | [] => []
  | l :: rest => if l.isEmpty then firstNonEmpty rest else l

/-! ## Station registry -/

/-- A station record as the application itself constructs it (app.py line
336 and line 440): the three string-valued keys `name`, `info`, `url`. -/
structure Station where
  name : String
  info : String
  url : String
deriving DecidableEq

/-- The player state `resolve`-independent parts of `RadioPlayer` that the
registry observes: `current_url` and `playing` (app.py lines 104-130). -/
structure Player where
  current_url : Option String
  playing : Bool
deriving DecidableEq

/-- `RadioPlayer.stop` (app.py lines 125-130): `playing = False`,
`current_url = None` on every path (the `finally` block). -/
def Player.stop (_p : Player) : Player :=
  { current_url := none, playing := false }

/-- The application state the registry operations touch: the in-memory
station list, the player, and whether `save_stations` has been triggered
by the operation under study. -/
structure AppState where
  stations : List Station
  player : Player
  saved : Bool
deriving DecidableEq

/-- The confirmed branch of `on_delete` (app.py lines 276-290) at a
selected index `i`: if the deleted record's url equals the playing url,
stop the player first; then `del self.stations[idx]` and
`self.save_stations()`.  An out-of-range index (impossible through the UI
selection) leaves the state unchanged. -/
def on_delete (st : AppState) (i : Nat) : AppState :=
  match st.stations[i]? with
  | none => st
  | some s =>
      let p := if st.player.current_url = some s.url then st.player.stop else st.player
      { stations := st.stations.eraseIdx i, player := p, saved := true }

/-- The `on_ok` handler of the station editor in add mode (app.py lines
329-345, `index is None`): strip the three fields; if name or url strips
to empty, show a validation message and return without mutating; otherwise
append the entry and save.  The Bool records whether the append-and-save
happened. -/
def onOkAdd (stations : List Station) (name info url : String) :
    List Station × Bool :=
  if strBlank (pyStrip name) || strBlank (pyStrip url) then (stations, false)
  else (stations ++ [⟨pyStrip name, pyStrip info, pyStrip url⟩], true)

/-- Python `a or b` for an optional string `a` (a `dict.get` result):
`None` and `""` are falsy. -/
def pyOr (a : Option String) (b : String) : String :=
  match a with
  | some s => if strBlank s then b else s
  | none => b

/-- `item.get("url_resolved") or item.get("url") or ""` (app.py line 416). -/
def itemStreamUrl (it : SearchItem) : String :=
  pyOr it.url_resolved (pyOr it.url "")

/-- The add-from-search path (app.py lines 427-447, `_add_search_thread`
plus its `_finish` callback): resolve the selected item's stream URL (any
resolution failure falls back to the raw URL), build the entry with
`item.get("name", "(no name)")` and `item.get("tags", "")`, append it to
the station list and save.  No validation of name or url occurs on this
path.  Returns the new list and whether a save was triggered. -/
def addSearchEntry (env : Env) (stations : List Station) (it : SearchItem) :
    List Station × Bool :=
  let url := itemStreamUrl it
  let resolved := resolve_playlist env url
  let entry : Station :=
    { name := match it.name with | some n => n | none => "(no name)"
    , info := match it.tags with | some t => t | none => ""
    , url := resolved }
  (stations ++ [entry], true)

/-! ## Persistence (`load_stations`, `save_stations`) -/

/-- The fragment of JSON the station file traffics in. -/
inductive Json where
  | str : String → Json
  | arr : List Json → Json
  | obj : List (String × Json) → Json

/-- The JSON value `json.dump` writes for one station dict (app.py line
299): keys in insertion order `name`, `info`, `url`. -/
def encodeStation (s : Station) : Json :=
  .obj [("name", .str s.name), ("info", .str s.info), ("url", .str s.url)]

/-- The JSON value `save_stations` serializes: the full ordered array. -/
def encodeStations (l : List Station) : Json :=
  .arr (l.map encodeStation)

/-- Python dict key lookup over an object's field list. -/
def lookupField : List (String × Json) → String → Option Json
  | [], _ => none
  | (k, v) :: rest, key => if k = key then some v else lookupField rest key

/-- `d.get(key)` on a JSON value (objects only). -/
def jsonGet (j : Json) (key : String) : Option Json :=
  match j with
  | .obj fields => lookupField fields key
  | _ => none

/-- Read one station dict back from JSON: the three string fields. -/
def decodeStation (j : Json) : Option Station :=
  match jsonGet j "name", jsonGet j "info", jsonGet j "url" with
  | some (.str n), some (.str i), some (.str u) => some ⟨n, i, u⟩
  | _, _, _ => none

/-- Read a station array back from a JSON list, failing on any bad element. -/
def decodeList : List Json → Option (List Station)
  | [] => some []
  | j :: rest =>
      match decodeStation j, decodeList rest with
      | some s, some l => some (s :: l)
      | _, _ => none

/-- Read the station sequence back from the stored JSON document. -/
def decodeStations (j : Json) : Option (List Station) :=
  match j with
  | .arr js => decodeList js
  | _ => none

/-- The state of the stations file: `none` is an absent file; `some none`
a file whose bytes `json.load` cannot parse (or cannot be read); `some
(some j)` a file parsing to the JSON value `j`. -/
def FileState : Type := Option (Option Json)

/-- `load_stations(path)` (app.py lines 28-33): an absent file yields the
empty list; otherwise `json.load` runs with no exception handler, so an
unreadable or malformed file raises to the caller (modelled `Except.error`);
a parseable file's value is returned as-is, with no validation. -/
def load_stations (f : FileState) : Except Unit Json :=
  match f with
  | none => .ok (.arr [])
  | some none => .error ()
  | some (some j) => .ok j

/-- The file state after a successful `save_stations` of list `l` (app.py
lines 296-301): `json.dump` writes text that parses back to the very JSON
value it serialized (exact for the string/array/object values at hand). -/
def saveFile (l : List Station) : FileState :=
  some (some (encodeStations l))

/-! ## Helper lemmas -/

theorem charsHavePre_shape {p : Char} {ps s : List Char}
    (h : charsHavePre (p :: ps) s = true) : ∃ cs, s = p :: cs := by
  cases s with
  | nil => simp [charsHavePre] at h
  | cons c cs =>
    simp only [charsHavePre, Bool.and_eq_true, beq_iff_eq] at h
    exact ⟨cs, by rw [h.1]⟩

/-- A line whose stripped form starts with `http://` or `https://` is
neither blank nor a `#`-comment, so the blank/comment branch of the scan
loop never captures a URL line. -/
theorem httpLine_not_skipped {line : String}
    (h : (strStarts line "http://" || strStarts line "https://") = true) :
    (strBlank line || strStarts line "#") = false := by
  have hh : ∃ cs, line.data = 'h' :: cs := by
    rcases Bool.or_eq_true_iff.mp h with h1 | h1
    · exact charsHavePre_shape (p := 'h') h1
    · exact charsHavePre_shape (p := 'h') h1
  obtain ⟨data⟩ := line
  obtain ⟨cs, hcs⟩ := hh
  have hd : data = 'h' :: cs := hcs
  subst hd
  simp [strBlank, strStarts, charsHavePre]

theorem specScan_nil (n : Nat) : specScan n [] = none := by
  cases n <;> rfl

/-- The code's scan loop, entered with `lines_read = lr`, computes exactly
the spec's scan of the non-`None` lines under the remaining budget. -/
theorem sniffLoop_eq_specScan (body : List (Option String)) :
    ∀ lr : Nat, lr < 64 →
      sniffLoop body lr = specScan (64 - lr) (compactLines body) := by
  induction body with
  | nil =>
    intro lr _
    rw [show compactLines [] = [] from rfl, specScan_nil]
    rfl
  | cons head rest ih =>
    intro lr hlr
    cases head with
    | none =>
      show sniffLoop rest lr = specScan (64 - lr) (compactLines rest)
      exact ih lr hlr
    | some raw =>
      have h64 : 64 - lr = (63 - lr) + 1 := by omega
      show (if strBlank (pyStrip raw) || strStarts (pyStrip raw) "#" then
              if lr + 1 ≥ 64 then none else sniffLoop rest (lr + 1)
            else if strStarts (pyStrip raw) "http://" || strStarts (pyStrip raw) "https://" then
              some (pyStrip raw)
            else if lr + 1 ≥ 64 then none else sniffLoop rest (lr + 1)) =
          specScan (64 - lr) (raw :: compactLines rest)
      rw [h64]
      show _ = (if strStarts (pyStrip raw) "http://" || strStarts (pyStrip raw) "https://" then
              some (pyStrip raw)
            else specScan (63 - lr) (compactLines rest))
      by_cases hhtp :
          (strStarts (pyStrip raw) "http://" || strStarts (pyStrip raw) "https://") = true
      · rw [httpLine_not_skipped hhtp, hhtp]
        simp
      · have hhtp' := eq_false_of_ne_true hhtp
        rw [hhtp']
        by_cases hb : lr + 1 ≥ 64
        · have h0 : 63 - lr = 0 := by omega
          rw [h0, show specScan 0 (compactLines rest) = none from rfl]
          cases hskip : (strBlank (pyStrip raw) || strStarts (pyStrip raw) "#") <;>
            simp [hb]
        · have hrec := ih (lr + 1) (by omega)
          have h63 : 64 - (lr + 1) = 63 - lr := by omega
          rw [h63] at hrec
          cases hskip : (strBlank (pyStrip raw) || strStarts (pyStrip raw) "#") <;>
            simp [hb, hrec]

/-- Splitting the extension test: a URL outside the extension heuristic in
particular does not end with `.mp3`, `.aac`, or `.m3u8` (the re-test at
app.py line 61). -/
theorem hasStreamExt_false_parts {url : String} (h : hasStreamExt url = false) :
    strEnds url ".mp3" = false ∧ strEnds url ".aac" = false ∧
      strEnds url ".m3u8" = false := by
  simp only [hasStreamExt, Bool.or_eq_false_iff] at h
  exact ⟨h.1.1.1.1, h.1.1.1.2, h.1.1.2⟩

/-! ## Claim theorems -/

/-- Claim C1: for every URL whose resolution reaches the playlist-sniff
step (the extension heuristic did not match, a probe response was
obtained, and its content-type does not contain "audio"), the result is
exactly the spec's line scan: the first body line, blanks and `#`-comments
skipped, whose stripped form starts with `http://` or `https://`,
short-circuiting the scan; and the original URL when no such line occurs
within the 64-line budget. -/
theorem resolve_sniff_firstUrl (env : Env) (url : String) (r : Resp)
    (h1 : hasStreamExt url = false) (h2 : probeResp env = some r)
    (h3 : strContains (pyLower r.contentType) "audio" = false) :
    resolve_playlist env url = (specScan 64 (compactLines r.body)).getD url := by
  obtain ⟨e1, e2, e3⟩ := hasStreamExt_false_parts h1
  have hscan := sniffLoop_eq_specScan r.body 0 (by omega)
  simp only [Nat.sub_zero] at hscan
  simp only [resolve_playlist, h1, h2, h3, e1, e2, e3, Bool.or_self,
    Bool.false_eq_true, if_false, hscan]
  cases specScan 64 (compactLines r.body) <;> simp

/-- Claim C1 witness: a playlist body whose first non-comment absolute URL
is returned, at concrete inputs. -/
theorem resolve_sniff_firstUrl_w :
    resolve_playlist
        ⟨some ⟨"text/plain",
          [some "#comment", some "", some "http://stream.example/a",
            some "http://stream.example/b"]⟩, none⟩
        "http://e/x" = "http://stream.example/a" := by
  have h := resolve_sniff_firstUrl
    ⟨some ⟨"text/plain",
      [some "#comment", some "", some "http://stream.example/a",
        some "http://stream.example/b"]⟩, none⟩
    "http://e/x"
    ⟨"text/plain",
      [some "#comment", some "", some "http://stream.example/a",
        some "http://stream.example/b"]⟩
    (by decide) rfl (by decide)
  rw [h]
  decide

/-- Claim C2: `resolve_playlist` is a total function of the probe
environment (every exception path of the code returns a value), and for
every environment and URL its result is either the input URL unchanged or
a line produced by the body scan of a successfully probed response; in
particular, whenever both the HEAD and the fallback GET fail (connection
refusal, timeout, malformed response), the input URL is returned
unchanged. -/
theorem resolve_never_raises (env : Env) (url : String) :
    (resolve_playlist env url = url ∨
      ∃ r, probeResp env = some r ∧
        sniffLoop r.body 0 = some (resolve_playlist env url)) ∧
    (probeResp env = none → resolve_playlist env url = url) := by
  constructor
  · cases hext : hasStreamExt url
    · cases hpr : probeResp env with
      | none => left; simp [resolve_playlist, hext, hpr]
      | some r =>
        cases hct : (strContains (pyLower r.contentType) "audio" ||
            strEnds url ".mp3" || strEnds url ".aac" || strEnds url ".m3u8")
        · cases hsn : sniffLoop r.body 0 with
          | none => left; simp [resolve_playlist, hext, hpr, hct, hsn]
          | some line =>
            right
            exact ⟨r, rfl, by simp [resolve_playlist, hext, hpr, hct, hsn]⟩
        · left; simp [resolve_playlist, hext, hpr, hct]
    · left; simp [resolve_playlist, hext]
  · intro h
    cases hext : hasStreamExt url <;> simp [resolve_playlist, hext, h]

/-- Claim C2 witness: a refused connection (both probes fail) returns the
original URL unchanged. -/
theorem resolve_never_raises_w :
    resolve_playlist ⟨none, none⟩ "http://refused.example/x" =
      "http://refused.example/x" :=
  (resolve_never_raises ⟨none, none⟩ "http://refused.example/x").2 rfl

/-- Claim C3: a URL ending in `.mp3`, `.aac`, `.m3u8`, `.pls` or `.m3u`
is returned unchanged for every network environment whatsoever — the
result does not depend on `env`, which is the purely functional reading of
"no network request is issued". -/
theorem resolve_ext_short_circuit (url : String)
    (h : hasStreamExt url = true) :
    ∀ env : Env, resolve_playlist env url = url := by
  intro env
  simp [resolve_playlist, h]

/-- Claim C3 witness: a `.pls` URL is returned unchanged even against an
environment whose response body would resolve to a different URL. -/
theorem resolve_ext_short_circuit_w :
    hasStreamExt "http://x/s.pls" = true ∧
      resolve_playlist ⟨some ⟨"text/plain", [some "http://other/"]⟩, none⟩
        "http://x/s.pls" = "http://x/s.pls" :=
  ⟨by decide,
    resolve_ext_short_circuit "http://x/s.pls" (by decide)
      ⟨some ⟨"text/plain", [some "http://other/"]⟩, none⟩⟩

/-- Claim C4: when the extension heuristic does not match and the probed
response's content-type contains "audio" case-insensitively, the input URL
is returned unchanged. -/
theorem resolve_audio_content_type (env : Env) (url : String) (r : Resp)
    (h1 : hasStreamExt url = false) (h2 : probeResp env = some r)
    (h3 : strContains (pyLower r.contentType) "audio" = true) :
    resolve_playlist env url = url := by
  simp [resolve_playlist, h1, h2, h3]

/-- Claim C4 witness: a mixed-case `Audio/MPEG` content-type returns the
input unchanged, even though the body holds another URL. -/
theorem resolve_audio_content_type_w :
    resolve_playlist ⟨some ⟨"Audio/MPEG", [some "http://other/"]⟩, none⟩
      "http://e/x" = "http://e/x" :=
  resolve_audio_content_type
    ⟨some ⟨"Audio/MPEG", [some "http://other/"]⟩, none⟩ "http://e/x"
    ⟨"Audio/MPEG", [some "http://other/"]⟩ (by decide) rfl (by decide)

/-- Claim C10: the scan strips each body line before classifying it: a
line whose stripped form starts with `#` is skipped (advancing the line
counter) even when the raw line has leading whitespace, and when the
stripped form of the first body line starts with `http://` or `https://`
the resolved URL is that stripped line — never the raw line. -/
theorem sniff_strips_lines (env : Env) (url : String) (r : Resp)
    (raw : String) (rest : List (Option String)) (lr : Nat)
    (h1 : hasStreamExt url = false) (h2 : probeResp env = some r)
    (h3 : strContains (pyLower r.contentType) "audio" = false) :
    (strStarts (pyStrip raw) "#" = true → lr + 1 < 64 →
      sniffLoop (some raw :: rest) lr = sniffLoop rest (lr + 1)) ∧
    ((strStarts (pyStrip raw) "http://" ||
        strStarts (pyStrip raw) "https://") = true →
      r.body = some raw :: rest →
      resolve_playlist env url = pyStrip raw) := by
  obtain ⟨e1, e2, e3⟩ := hasStreamExt_false_parts h1
  constructor
  · intro hc hlt
    show (if strBlank (pyStrip raw) || strStarts (pyStrip raw) "#" then
            if lr + 1 ≥ 64 then none else sniffLoop rest (lr + 1)
          else if strStarts (pyStrip raw) "http://" ||
              strStarts (pyStrip raw) "https://" then
            some (pyStrip raw)
          else if lr + 1 ≥ 64 then none else sniffLoop rest (lr + 1)) =
        sniffLoop rest (lr + 1)
    rw [hc]
    simp [hlt]
    omega
  · intro hhtp hbody
    have hskip := httpLine_not_skipped hhtp
    have hloop : sniffLoop r.body 0 = some (pyStrip raw) := by
      rw [hbody]
      show (if strBlank (pyStrip raw) || strStarts (pyStrip raw) "#" then
              if 0 + 1 ≥ 64 then none else sniffLoop rest (0 + 1)
            else if strStarts (pyStrip raw) "http://" ||
                strStarts (pyStrip raw) "https://" then
              some (pyStrip raw)
            else if 0 + 1 ≥ 64 then none else sniffLoop rest (0 + 1)) =
          some (pyStrip raw)
      rw [hskip, hhtp]
      simp
    simp [resolve_playlist, h1, h2, h3, e1, e2, e3, hloop]

/-- Claim C10 witness: a comment line with leading whitespace is skipped,
and a URL line with surrounding whitespace resolves to its stripped form. -/
theorem sniff_strips_lines_w :
    sniffLoop [some "  #note", some "  http://s/a  "] 0 =
        sniffLoop [some "  http://s/a  "] 1 ∧
      resolve_playlist
        ⟨some ⟨"text/plain", [some "  http://s/a  "]⟩, none⟩
        "http://e/pl" = "http://s/a" := by
  constructor
  · exact (sniff_strips_lines ⟨some ⟨"text/plain", []⟩, none⟩ "http://e/pl"
      ⟨"text/plain", []⟩ "  #note" [some "  http://s/a  "] 0
      (by decide) rfl (by decide)).1 (by decide) (by decide)
  · have h := (sniff_strips_lines
      ⟨some ⟨"text/plain", [some "  http://s/a  "]⟩, none⟩ "http://e/pl"
      ⟨"text/plain", [some "  http://s/a  "]⟩ "  http://s/a  " [] 0
      (by decide) rfl (by decide)).2 (by decide) rfl
    rw [h]
    decide

/-- Claim C5: in `Auto` mode the concrete modes are tried in the fixed
order name, tag, country, language, and the result is that of the first
mode whose result sequence is non-empty (a failed request yields the empty
sequence for its mode); if all four fail or are empty the result is empty;
the function is total, so nothing is raised to the caller.  In particular,
when name-mode is empty and tag-mode is not, the result is exactly the
tag-mode result, whatever the country and language modes would have
answered. -/
theorem search_auto_fallback (env : SearchEnv) :
    search_thread env "Auto" = firstNonEmpty (autoModes.map (fetch env)) ∧
    ((fetch env "name").isEmpty = true → (fetch env "tag").isEmpty = false →
      search_thread env "Auto" = fetch env "tag") := by
  have hAuto : search_thread env "Auto" = searchLoop env autoModes := by
    simp [search_thread]
  have key : ∀ ms : List String,
      searchLoop env ms = firstNonEmpty (ms.map (fetch env)) := by
    intro ms
    induction ms with
    | nil => rfl
    | cons m rest ih =>
      show (if (fetch env m).isEmpty then searchLoop env rest else fetch env m) =
        (if (fetch env m).isEmpty then firstNonEmpty (rest.map (fetch env))
          else fetch env m)
      rw [ih]
  constructor
  · rw [hAuto, key autoModes]
  · intro h1 h2
    rw [hAuto, key autoModes]
    simp only [autoModes, List.map, firstNonEmpty]
    rw [h1, h2]
    simp

/-- Claim C5 witness: name-mode empty, tag-mode non-empty: the tag result
is returned, with country and language modes set up to answer differently. -/
theorem search_auto_fallback_w :
    search_thread
        (fun m =>
          if m = "tag" then some [⟨some "A", none, some "t", some "http://u", none⟩]
          else if m = "name" then some []
          else some [⟨some "X", none, none, none, none⟩])
        "Auto" = [⟨some "A", none, some "t", some "http://u", none⟩] := by
  have h := (search_auto_fallback
    (fun m =>
      if m = "tag" then some [⟨some "A", none, some "t", some "http://u", none⟩]
      else if m = "name" then some []
      else some [⟨some "X", none, none, none, none⟩])).2 (by decide) (by decide)
  rw [h]
  decide

/-- Claim C6 counterexample: a search item whose name, url and
url_resolved keys are present but empty flows through the add-from-search
path into an appended and persisted record with empty name and empty url,
so the claim that Add always validates (including that path) is false. -/
theorem addSearch_no_validation_cex :
    addSearchEntry ⟨none, none⟩ []
        ⟨some "", none, some "", some "", some ""⟩ =
      ([⟨"", "", ""⟩], true) := by
  decide

/-- Claim C6 amended: the station editor's `on_ok` validates that the
stripped name and url are non-empty before appending and persisting, and
leaves the list untouched otherwise; but the add-from-search path performs
no validation at all: it always appends exactly one record and triggers
persistence, whatever the item's fields hold. -/
theorem add_validation_amended (s : List Station) (n i u : String)
    (env : Env) (it : SearchItem) :
    ((strBlank (pyStrip n) || strBlank (pyStrip u)) = true →
      onOkAdd s n i u = (s, false)) ∧
    ((strBlank (pyStrip n) || strBlank (pyStrip u)) = false →
      onOkAdd s n i u = (s ++ [⟨pyStrip n, pyStrip i, pyStrip u⟩], true)) ∧
    (addSearchEntry env s it).1.length = s.length + 1 ∧
    (addSearchEntry env s it).2 = true := by
  refine ⟨?_, ?_, ?_, rfl⟩
  · intro h
    simp [onOkAdd, h]
  · intro h
    simp [onOkAdd, h]
  · simp [addSearchEntry]

/-- Claim C6 amended witness: a blank name is rejected by the editor, a
valid entry is appended, and the unvalidated search path appends an
all-empty record regardless. -/
theorem add_validation_amended_w :
    onOkAdd [] "" "i" "u" = ([], false) ∧
    onOkAdd [] "n" "i" "http://u" = ([⟨"n", "i", "http://u"⟩], true) ∧
    (addSearchEntry ⟨none, none⟩ []
      ⟨some "", none, some "", some "", some ""⟩).1.length = 1 := by
  refine ⟨?_, ?_, ?_⟩
  · exact (add_validation_amended [] "" "i" "u" ⟨none, none⟩
      ⟨none, none, none, none, none⟩).1 (by decide)
  · have h := (add_validation_amended [] "n" "i" "http://u" ⟨none, none⟩
      ⟨none, none, none, none, none⟩).2.1 (by decide)
    rw [h]
    decide
  · exact (add_validation_amended [] "x" "y" "z" ⟨none, none⟩
      ⟨some "", none, some "", some "", some ""⟩).2.2.1

/-- Claim C7 counterexample: a present but unparseable stations file does
not yield the empty sequence — `json.load` runs with no handler, so the
error propagates to the caller. -/
theorem load_malformed_raises_cex :
    load_stations (some none) = Except.error () ∧
      load_stations (some none) ≠ Except.ok (Json.arr []) :=
  ⟨rfl, fun h => Except.noConfusion h⟩

/-- Claim C7 amended: at process start the station list is loaded once
from the stations file; an absent file yields the empty sequence, a
parseable file's JSON content is returned as-is (no validation), and an
unreadable or malformed file raises the load error to the caller instead
of yielding the empty sequence. -/
theorem load_stations_amended :
    load_stations none = Except.ok (Json.arr []) ∧
    (∀ j : Json, load_stations (some (some j)) = Except.ok j) ∧
    load_stations (some none) = Except.error () :=
  ⟨rfl, fun _ => rfl, rfl⟩

/-- Claim C8: deleting a valid index whose record's url equals the
currently-playing url stops the player before removal; deleting an index
whose record's url differs leaves the player state untouched; every
confirmed delete removes exactly the record at that index and triggers
persistence. -/
theorem delete_stops_matching (st : AppState) (i : Nat) (s : Station)
    (hs : st.stations[i]? = some s) :
    (st.player.current_url = some s.url →
      (on_delete st i).player = ⟨none, false⟩) ∧
    (st.player.current_url ≠ some s.url →
      (on_delete st i).player = st.player) ∧
    (on_delete st i).stations = st.stations.eraseIdx i ∧
    (on_delete st i).saved = true := by
  refine ⟨?_, ?_, ?_, ?_⟩
  · intro h
    simp [on_delete, hs, h, Player.stop]
  · intro h
    simp [on_delete, hs, h]
  · simp [on_delete, hs]
  · simp [on_delete, hs]

/-- Claim C8 witness: with station 0 playing, deleting station 0 stops the
player and removes that record with a save; deleting station 1 leaves the
player untouched. -/
theorem delete_stops_matching_w :
    (on_delete ⟨[⟨"a", "", "http://u"⟩, ⟨"b", "", "http://v"⟩],
        ⟨some "http://u", true⟩, false⟩ 0).player = ⟨none, false⟩ ∧
    (on_delete ⟨[⟨"a", "", "http://u"⟩, ⟨"b", "", "http://v"⟩],
        ⟨some "http://u", true⟩, false⟩ 0).stations = [⟨"b", "", "http://v"⟩] ∧
    (on_delete ⟨[⟨"a", "", "http://u"⟩, ⟨"b", "", "http://v"⟩],
        ⟨some "http://u", true⟩, false⟩ 0).saved = true ∧
    (on_delete ⟨[⟨"a", "", "http://u"⟩, ⟨"b", "", "http://v"⟩],
        ⟨some "http://u", true⟩, false⟩ 1).player = ⟨some "http://u", true⟩ := by
  have h0 := delete_stops_matching
    ⟨[⟨"a", "", "http://u"⟩, ⟨"b", "", "http://v"⟩],
      ⟨some "http://u", true⟩, false⟩ 0 ⟨"a", "", "http://u"⟩ rfl
  have h1 := delete_stops_matching
    ⟨[⟨"a", "", "http://u"⟩, ⟨"b", "", "http://v"⟩],
      ⟨some "http://u", true⟩, false⟩ 1 ⟨"b", "", "http://v"⟩ rfl
  refine ⟨h0.1 rfl, ?_, h0.2.2.2, h1.2.1 (by decide)⟩
  rw [h0.2.2.1]
  decide

/-- Every station record encodes to a JSON object that reads back as the
same record (field content preserved). -/
theorem decodeStation_encode (s : Station) :
    decodeStation (encodeStation s) = some s := rfl

/-- An encoded station array decodes back to the same ordered list. -/
theorem decodeList_encode (l : List Station) :
    decodeList (l.map encodeStation) = some l := by
  induction l with
  | nil => rfl
  | cons s rest ih =>
    show (match decodeStation (encodeStation s),
        decodeList (rest.map encodeStation) with
      | some a, some b => some (a :: b)
      | _, _ => none) = some (s :: rest)
    rw [decodeStation_encode, ih]

/-- Claim C9: Add (with valid fields) followed by Save and a reload
round-trips: loading the saved file yields exactly the serialized JSON,
and decoding it yields the very in-memory sequence that was saved, in
order and field content. -/
theorem add_save_reload_roundtrip (s : List Station) (n i u : String)
    (h : (strBlank (pyStrip n) || strBlank (pyStrip u)) = false) :
    load_stations (saveFile (onOkAdd s n i u).1) =
        Except.ok (encodeStations (onOkAdd s n i u).1) ∧
      decodeStations (encodeStations (onOkAdd s n i u).1) =
        some (onOkAdd s n i u).1 ∧
      (onOkAdd s n i u).1 = s ++ [⟨pyStrip n, pyStrip i, pyStrip u⟩] := by
  refine ⟨rfl, ?_, by simp [onOkAdd, h]⟩
  show decodeList ((onOkAdd s n i u).1.map encodeStation) =
    some (onOkAdd s n i u).1
  exact decodeList_encode _

/-- Claim C9 witness: a concrete Add, Save, reload cycle reproducing the
saved one-element sequence. -/
theorem add_save_reload_roundtrip_w :
    decodeStations (encodeStations (onOkAdd [] "n" "i" "http://u").1) =
        some (onOkAdd [] "n" "i" "http://u").1 ∧
      (onOkAdd [] "n" "i" "http://u").1 = [⟨"n", "i", "http://u"⟩] := by
  have h := add_save_reload_roundtrip [] "n" "i" "http://u" (by decide)
  refine ⟨h.2.1, ?_⟩
  rw [h.2.2]
  decide
